import Mathlib

/-!
Verification of `server/testcase_generator.py`.

The Python script is embedded shallowly:

* Python strings are Lean `String`s; the triple-quoted prompt templates are
  reproduced up to insignificant indentation whitespace.
* A JSON-serializable Python value (`json.dumps` input, the crew result
  bundle) is a `Json` value below; `json.dumps` of such a value always emits
  one well-formed, non-empty JSON text, which the output model records as a
  `Line.json` line.
* Filesystem paths built with `os.path.join(dir, name)` become component
  lists `[dir, name] : List String`; the filesystem is an association list
  from paths to file contents, with `open(..., 'w')` / `doc.save` modelled
  as overwriting writes.
* Exceptions become `Except String`; `try`/`except Exception` becomes a
  `match` on the `Except` value.  Outcomes of external calls (`Document`,
  `crew.kickoff`, the export helpers' I/O) are parameters of the run model,
  so every possible success/failure of the externals is quantified over.
-/

/-- A JSON-serializable Python value: a string or a string-keyed object.
(The script only ever serializes strings and dicts of strings/dicts.) -/
inductive Json where
  | str (s : String)
  | obj (fields : List (String × Json))

/-- Key lookup in a JSON object, `d[k]` / `d.get(k)` on the underlying dict
(first matching key; Python dict keys are unique). Non-objects have no keys. -/
def lookupJson (j : Json) (key : String) : Option Json :=
  match j with
  | .str _ => none
  | .obj fields => (fields.find? (fun kv => kv.1 = key)).map (fun kv => kv.2)

/-- The crew result bundle: an unstructured mapping from section name to
generated text (`results` as consumed by the exporters). -/
abbrev Bundle := List (String × String)

/-- Embedding of the result bundle into the JSON model, for `json.dumps` /
`json.dump` of a value containing it. -/
def bundleJson (b : Bundle) : Json :=
  Json.obj ((b : List (String × String)).map (fun kv => (kv.1, Json.str kv.2)))

/-- Python `results.get(key, '')` — `dict.get` with default `''`
(`str(...)` of a string value is the value itself). -/
def pyGet (results : Bundle) (key : String) : String :=
  (((results : List (String × String)).find? (fun kv => kv.1 = key)).map
    (fun kv => kv.2)).getD ""

/-- Python truthiness of `os.getenv(...)`: `None` and the empty string are
both falsy, so `if not OPENAI_API_KEY` fires on either. -/
def pyFalsy : Option String → Bool
  | none => true
  | some s => s = ""

/-- The `ValueError` message raised at import time when the credential is
absent (line 27 of the script). -/
def missingKeyMsg : String :=
  "OPENAI_API_KEY is missing. Ensure it is set in the environment or .env file."

/-- Module import: after `load_dotenv()` has merged the `.env` file into the
process environment, `OPENAI_API_KEY = os.getenv('OPENAI_API_KEY')` is
checked once; a falsy value raises `ValueError` before any class code runs.
`envKey` is the merged value of the variable (`none` = unset). -/
def module_startup (envKey : Option String) : Except String Unit :=
  if pyFalsy envKey then Except.error missingKeyMsg else Except.ok ()

/-- An agent descriptor: role, goal, backstory (the shared `llm` handle and
`verbose=True` flag carry no information relevant to the claims and are
omitted from the record). -/
structure Agent where
  role : String
  goal : String
  backstory : String
deriving Repr, DecidableEq

/-- Source `create_requirements_analyzer` (multi-line backstory flattened). -/
def create_requirements_analyzer : Agent :=
  { role := "Requirements Analyst"
    goal := "Analyze software requirements and extract structured information for test case creation"
    backstory := "You are a senior Requirements Analyst with 15+ years of experience in analyzing complex software requirements. You excel at identifying edge cases, non-functional requirements, and hidden constraints." }

/-- Source `create_test_case_generator`. -/
def create_test_case_generator : Agent :=
  { role := "Test Case Engineer"
    goal := "Generate comprehensive test cases covering all requirement aspects"
    backstory := "You are a senior Test Case Engineer specializing in creating detailed test cases for complex systems. Your test cases are known for their clarity, completeness, and attention to edge cases." }

/-- Source `create_test_data_generator`. -/
def create_test_data_generator : Agent :=
  { role := "Test Data Engineer"
    goal := "Generate comprehensive test data sets for all test scenarios"
    backstory := "You are a specialized Test Data Engineer with expertise in creating realistic and comprehensive test data. You understand data patterns, boundary conditions, and security implications of test data." }

/-- Source `create_test_case_validator`. -/
def create_test_case_validator : Agent :=
  { role := "Test Case Validator"
    goal := "Validate and optimize test cases for completeness and effectiveness"
    backstory := "You are a Test Case Validation expert who ensures test cases meet quality standards and provide optimal coverage. You excel at identifying gaps and optimizing test suites." }

/-- A filesystem path as its `os.path.join` components: the script only ever
joins its (relative, single-component) output directory with a bare file
name, so `os.path.join(d, n)` is `[d, n]`. -/
abbrev PyPath := List String

/-- Embedding of `os.path.join(dir, name)` for a single-component directory. -/
def path_join (dir name : String) : PyPath := [dir, name]

/-- A task descriptor: prompt description, assigned agent, dependency file
paths (`[]` when the `dependencies` argument is omitted), output file path. -/
structure PyTask where
  description : String
  agent : Agent
  dependencies : List PyPath
  output_file : PyPath
deriving Repr, DecidableEq

/-- The timestamped directory name `f"test_artifacts_{timestamp}"`; the
timestamp string is `datetime.now().strftime('%Y%m%d_%H%M%S')`, treated as
an opaque parameter of the run. -/
def output_dir_name (timestamp : String) : String :=
  "test_artifacts_" ++ timestamp

/-- Source `analyze_requirements_task` (prompt template shown through its first
line; the claims do not depend on the prompt wording). -/
def analyze_requirements_task (output_dir requirements_text : String) : PyTask :=
  { description :=
      "Thoroughly analyze the following software requirements document:\n" ++
      requirements_text ++
      "\nExtract and structure: 1. Functional Requirements ... Provide a detailed, structured analysis suitable for test case creation."
    agent := create_requirements_analyzer
    dependencies := []
    output_file := path_join output_dir "requirements_analysis.md" }

/-- Source `generate_test_cases_task`. -/
def generate_test_cases_task (output_dir : String) : PyTask :=
  { description :=
      "Generate comprehensive test cases based on the requirements analysis.\nInclude test cases for: 1. Functional Requirements ... Each test case must include: - Unique ID and Title ... - Notes and Risks"
    agent := create_test_case_generator
    dependencies := [path_join output_dir "requirements_analysis.md"]
    output_file := path_join output_dir "detailed_test_cases.md" }

/-- Source `generate_test_data_task`. -/
def generate_test_data_task (output_dir : String) : PyTask :=
  { description :=
      "Generate comprehensive test data sets for all test cases.\nInclude data for: 1. Happy Path Scenarios ... Provide data sets in structured JSON format with: - Test Case ID Reference ... - Environmental Requirements"
    agent := create_test_data_generator
    dependencies := [path_join output_dir "detailed_test_cases.md"]
    output_file := path_join output_dir "test_data_sets.json" }

/-- Source `validate_test_cases_task`. -/
def validate_test_cases_task (output_dir : String) : PyTask :=
  { description :=
      "Validate and optimize the test suite.\nPerform: 1. Requirements Coverage Analysis ... Provide detailed report including: - Coverage Metrics ... - Improvement Suggestions"
    agent := create_test_case_validator
    dependencies :=
      [path_join output_dir "detailed_test_cases.md",
       path_join output_dir "test_data_sets.json"]
    output_file := path_join output_dir "validation_report.md" }

/-- The task list built inside `generate_test_cases`. -/
def workflow_tasks (output_dir requirements_text : String) : List PyTask :=
  [analyze_requirements_task output_dir requirements_text,
   generate_test_cases_task output_dir,
   generate_test_data_task output_dir,
   validate_test_cases_task output_dir]

/-- The agent list built inside `generate_test_cases`. -/
def workflow_crew_agents : List Agent :=
  [create_requirements_analyzer, create_test_case_generator,
   create_test_data_generator, create_test_case_validator]

/-- All agent descriptors constructed during one execution of
`generate_test_cases`: each task constructor creates its agent (4), then the
crew agent list creates 4 more. -/
def workflow_agents_created (output_dir requirements_text : String) : List Agent :=
  (workflow_tasks output_dir requirements_text).map (fun t => t.agent) ++
    workflow_crew_agents

/-- Embedding of `"\n".join([para.text for para in doc.paragraphs])`: Python `str.join`
over the list of paragraph texts. -/
def pyJoinStrings (sep : String) : List String → String
  | [] => ""
  | [x] => x
  | x :: y :: rest => x ++ sep ++ pyJoinStrings sep (y :: rest)

/-- The input loader of `main` (lines 302-303): the requirements string is
the newline-join of the texts of ALL paragraphs of the document, in order
(empty paragraph texts included). -/
def load_requirements (paragraphs : List String) : String :=
  pyJoinStrings "\n" paragraphs

/-- The success dictionary returned by `generate_test_cases` (lines 234-238). -/
def successDict (result : Bundle) (output_dir : String) : Json :=
  Json.obj
    [("status", Json.str "success"),
     ("result", bundleJson result),
     ("artifacts_directory", Json.str output_dir)]

/-- The error dictionary returned by `generate_test_cases` (lines 242-245). -/
def errorDict (msg : String) : Json :=
  Json.obj [("status", Json.str "error"), ("error", Json.str msg)]

/-- Source `TestCaseGenerationCrew.generate_test_cases` (lines 198-245).

The body of the `try` block builds the task and agent lists, runs
`crew.kickoff()` and then `export_results(result)`; any exception raised in
it is caught by `except Exception` and turned into the error dictionary.
The two fallible steps are the external calls, passed in as parameters:
`kickoff` (given the agent and task lists, returns the result bundle or
raises) and `exportResults` (`export_results`: re-raises any exporter
exception after logging it, line 260).  The value is `Except.ok` of the
returned dictionary; `Except.error` would mean an exception propagated to
the caller. -/
def generate_test_cases (output_dir requirements_text : String)
    (kickoff : List Agent → List PyTask → Except String Bundle)
    (exportResults : Bundle → Except String Unit) : Except String Json :=
  let tasks := workflow_tasks output_dir requirements_text
  let agents := workflow_crew_agents
  match
    (match kickoff agents tasks with
     | Except.error e => Except.error e
     | Except.ok result =>
       match exportResults result with
       | Except.error e => Except.error e
       | Except.ok _ => Except.ok (successDict result output_dir)) with
  | Except.ok d => Except.ok d
  | Except.error e => Except.ok (errorDict e)

/-- One line of process output: a plain `print(...)` of text, a
`print(json.dumps(v))` of a serializable value (always a single well-formed
JSON text), or a record emitted by the `logging.StreamHandler()` installed
at lines 13-20 — the handler's default stream is `sys.stderr`, and each
record is formatted `%(asctime)s - %(levelname)s - %(message)s`: plain text
opening with a wall-clock timestamp, never a well-formed JSON document. -/
inductive Line where
  | text (s : String)
  | json (j : Json)
  | log (level msg : String)

/-- Observable outcome of a process run: output lines, exit code, input
files opened for reading, network calls made, and the agent descriptors
constructed along the way. -/
structure ProcResult where
  stdout : List Line
  stderr : List Line
  exitCode : Nat
  fileReads : List String
  netCalls : Nat
  agentsCreated : List Agent

/-- Outcomes of the external dependencies during one run, quantified over in
the theorems:
`readDoc` — `Document(file_path)`: the paragraph texts, or the parse/read
exception; `crewInit` — `TestCaseGenerationCrew.__init__` effects other than
the directory name (`ChatOpenAI(...)`, `os.makedirs`): `ok` or an exception;
`timestamp` — `datetime.now().strftime('%Y%m%d_%H%M%S')` at init;
`kickoff` — `crew.kickoff()`; `kickNet` — network calls made inside
`kickoff`; `exportResults` — outcome of the `export_results` file writes. -/
structure RunEnv where
  readDoc : Except String (List String)
  crewInit : Except String Unit
  timestamp : String
  kickoff : List Agent → List PyTask → Except String Bundle
  kickNet : Nat
  exportResults : Bundle → Except String Unit

/-- The JSON error line `{"error": str(e)}` printed to stderr (line 317). -/
def stderrErrorLine (msg : String) : Line :=
  Line.json (Json.obj [("error", Json.str msg)])

/-- Log records written to stderr by the body of `generate_test_cases` and
by `export_results` inside it: `logging.info` at line 201 on entry; then on
the kickoff-exception path `logging.error` at line 241; on the
export-exception path `logging.error` at line 259 (inside `export_results`)
followed by line 241; on full success `logging.info` at line 256 followed by
line 232.  (The record of `__init__`, line 39, is prepended by `pymain`.) -/
def generate_test_cases_logs (output_dir requirements_text : String)
    (kickoff : List Agent → List PyTask → Except String Bundle)
    (exportResults : Bundle → Except String Unit) : List Line :=
  Line.log "INFO" "Starting test case generation workflow" ::
    (match kickoff workflow_crew_agents
        (workflow_tasks output_dir requirements_text) with
     | Except.error e =>
       [Line.log "ERROR" ("Error in test case generation: " ++ e)]
     | Except.ok result =>
       match exportResults result with
       | Except.error e =>
         [Line.log "ERROR" ("Error exporting results: " ++ e),
          Line.log "ERROR" ("Error in test case generation: " ++ e)]
       | Except.ok _ =>
         [Line.log "INFO" "Results exported successfully",
          Line.log "INFO" "Test case generation workflow completed successfully"])

/-- Source `main(file_path)` (lines 298-318).

The `try` block reads the document, joins the paragraphs, initializes the
crew (which fixes the output directory name), runs `generate_test_cases`,
prints the result dictionary as JSON on stdout and returns
`0 if result['status'] == 'success' else 1`. Any exception escaping the
`try` body is printed as `{"error": str(e)}` on stderr with return value 1.
(`result['status']` cannot raise `KeyError`: `generate_test_cases` always
sets the key, as proved below.)

The stderr stream also carries the `logging.StreamHandler` records: none on
the document-read-failure and init-failure paths (`main` itself never logs,
and `__init__` logs "TestCaseGenerationCrew initialized", line 39, only as
its last statement, after the failure points at lines 33-38); on the paths
that reach `generate_test_cases`, that init record followed by the workflow
records of `generate_test_cases_logs`. -/
def pymain (file_path : String) (env : RunEnv) : ProcResult :=
  match env.readDoc with
  | Except.error e =>
    { stdout := [], stderr := [stderrErrorLine e], exitCode := 1,
      fileReads := [file_path], netCalls := 0, agentsCreated := [] }
  | Except.ok paragraphs =>
    let requirements_content := load_requirements paragraphs
    match env.crewInit with
    | Except.error e =>
      { stdout := [], stderr := [stderrErrorLine e], exitCode := 1,
        fileReads := [file_path], netCalls := 0, agentsCreated := [] }
    | Except.ok _ =>
      let output_dir := output_dir_name env.timestamp
      let logLines := Line.log "INFO" "TestCaseGenerationCrew initialized" ::
        generate_test_cases_logs output_dir requirements_content
          env.kickoff env.exportResults
      match generate_test_cases output_dir requirements_content
              env.kickoff env.exportResults with
      | Except.ok result =>
        { stdout := [Line.json result], stderr := logLines,
          exitCode :=
            match lookupJson result "status" with
            | some (Json.str s) => if s = "success" then 0 else 1
            | _ => 1,
          fileReads := [file_path], netCalls := env.kickNet,
          agentsCreated := workflow_agents_created output_dir requirements_content }
      | Except.error e =>
        { stdout := [], stderr := logLines ++ [stderrErrorLine e], exitCode := 1,
          fileReads := [file_path], netCalls := env.kickNet,
          agentsCreated := workflow_agents_created output_dir requirements_content }

/-- The usage line printed by the `__main__` guard (line 322). -/
def usageMsg : String :=
  "Usage: python test_case_generator.py <requirements_file_path>"

/-- An uncaught import-time exception: Python prints a traceback to stderr
and the process exits with code 1; nothing else has run. -/
def importAbort (msg : String) : ProcResult :=
  { stdout := [], stderr := [Line.text ("Traceback (most recent call last): ValueError: " ++ msg)],
    exitCode := 1, fileReads := [], netCalls := 0, agentsCreated := [] }

/-- Whole-script execution: module import (credential check, lines 25-27),
then the `__main__` guard (lines 320-324): with `len(sys.argv) != 2` it
prints the usage string and exits 1 before touching any file or the
network; otherwise it runs `sys.exit(main(sys.argv[1]))`.  `argv` is the
full `sys.argv`, program name included. -/
def script (envKey : Option String) (argv : List String) (env : RunEnv) :
    ProcResult :=
  match module_startup envKey with
  | Except.error e => importAbort e
  | Except.ok _ =>
    match argv with
    | [_, file_path] => pymain file_path env
    | _ =>
      { stdout := [Line.text usageMsg], stderr := [], exitCode := 1,
        fileReads := [], netCalls := 0, agentsCreated := [] }

/-- An element of the generated Word document: `doc.add_heading(text, level)`
or `doc.add_paragraph(text)`. -/
inductive DocElem where
  | heading (level : Nat) (text : String)
  | para (text : String)
deriving Repr, DecidableEq

/-- The four expected sections of the Word export, in the order the code
emits them: displayed heading and the result-bundle key it reads. -/
def expected_sections : List (String × String) :=
  [("Requirements Analysis", "requirements_analysis"),
   ("Test Cases", "test_cases"),
   ("Test Data", "test_data"),
   ("Validation Report", "validation_report")]

/-- Source `TestCaseGenerationCrew.export_to_word` (lines 262-287), document
content only: the title heading, then for each section a level-2 heading
and one paragraph holding `str(results.get(key, ''))`. -/
def export_to_word_doc (results : Bundle) : List DocElem :=
  [DocElem.heading 1 "Test Case Generation Results",
   DocElem.heading 2 "Requirements Analysis",
   DocElem.para (pyGet results "requirements_analysis"),
   DocElem.heading 2 "Test Cases",
   DocElem.para (pyGet results "test_cases"),
   DocElem.heading 2 "Test Data",
   DocElem.para (pyGet results "test_data"),
   DocElem.heading 2 "Validation Report",
   DocElem.para (pyGet results "validation_report")]

/-- Content of a file on disk: plain text, a saved Word document, or a
`json.dump`ed value. -/
inductive FileContent where
  | text (s : String)
  | wordDoc (elems : List DocElem)
  | jsonFile (j : Json)

/-- Non-emptiness of a file: text is non-empty as a string; a Word document
is non-empty when it has at least one element; the `json.dump` serialization
of any JSON value is a non-empty text. -/
def FileContent.nonEmpty : FileContent → Prop
  | FileContent.text s => s ≠ ""
  | FileContent.wordDoc elems => elems ≠ []
  | FileContent.jsonFile _ => True

/-- A filesystem: the directories that exist and the files with their
contents (later writes shadow earlier ones; `fileLookup` reads the newest). -/
structure FS where
  dirs : List PyPath
  files : List (PyPath × FileContent)

/-- The empty filesystem: a fresh working directory. -/
def emptyFS : FS := { dirs := [], files := [] }

/-- Embedding of `os.makedirs(d, exist_ok=ok)`: creates the directory; when it already
exists, succeeds silently if `exist_ok` is true and raises
`FileExistsError` otherwise. -/
def makedirs (fs : FS) (d : PyPath) (exist_ok : Bool) : Except String FS :=
  if d ∈ fs.dirs then
    if exist_ok then Except.ok fs else Except.error "FileExistsError"
  else Except.ok { fs with dirs := d :: fs.dirs }

/-- Source `TestCaseGenerationCrew._create_output_directory` (lines 41-46): builds
`test_artifacts_<timestamp>`, calls `os.makedirs(..., exist_ok=True)` and
returns the directory name. -/
def create_output_directory (fs : FS) (timestamp : String) :
    Except String (FS × String) :=
  let output_dir := output_dir_name timestamp
  match makedirs fs [output_dir] true with
  | Except.error e => Except.error e
  | Except.ok fs2 => Except.ok (fs2, output_dir)

/-- Embedding of `open(p, 'w')` / `doc.save(p)`: an overwriting write — the new content
replaces any previous content at the same path. -/
def writeFile (fs : FS) (p : PyPath) (c : FileContent) : FS :=
  { fs with files := (p, c) :: fs.files.filter (fun e => ¬ e.1 = p) }

/-- The current content of a file, if present. -/
def fileLookup (fs : FS) (p : PyPath) : Option FileContent :=
  (fs.files.find? (fun e => e.1 = p)).map (fun e => e.2)

/-- The Word output path of `export_to_word` (line 265). -/
def word_output_file (output_dir : String) : PyPath :=
  path_join output_dir "Generated_Test_Cases.docx"

/-- The JSON output path of `export_to_json` (line 291). -/
def json_output_file (output_dir : String) : PyPath :=
  path_join output_dir "test_cases_complete.json"

/-- Source `export_to_word` as a filesystem action: saves the built document at the
Word output path. -/
def export_to_word_fs (fs : FS) (output_dir : String) (results : Bundle) : FS :=
  writeFile fs (word_output_file output_dir)
    (FileContent.wordDoc (export_to_word_doc results))

/-- Source `export_to_json` as a filesystem action: `json.dump(results, f)` at the
JSON output path. -/
def export_to_json_fs (fs : FS) (output_dir : String) (results : Bundle) : FS :=
  writeFile fs (json_output_file output_dir)
    (FileContent.jsonFile (bundleJson results))

/-- The texts produced by the four workflow tasks during one successful run. -/
structure SectionTexts where
  requirements_analysis : String
  test_cases : String
  test_data : String
  validation_report : String

/-- Modelled from the spec: the external crew orchestrator ("Orchestrator
invocation", spec §2/§3) is not code of this repository; per the spec it
executes the four declared tasks sequentially and materializes each task's
generated text at the task's declared `output_file`.  The paths written are
exactly the `output_file` fields of the task descriptors built by this
script. -/
def crew_kickoff_writes (fs : FS) (output_dir requirements_text : String)
    (s : SectionTexts) : FS :=
  let fs1 := writeFile fs (analyze_requirements_task output_dir requirements_text).output_file
    (FileContent.text s.requirements_analysis)
  let fs2 := writeFile fs1 (generate_test_cases_task output_dir).output_file
    (FileContent.text s.test_cases)
  let fs3 := writeFile fs2 (generate_test_data_task output_dir).output_file
    (FileContent.text s.test_data)
  writeFile fs3 (validate_test_cases_task output_dir).output_file
    (FileContent.text s.validation_report)

/-- The filesystem after a run that completes successfully, started in a
fresh working directory: `_create_output_directory` at init, the
orchestrator's four task-output writes during `kickoff`, then
`export_to_word` and `export_to_json` from `export_results`. -/
def successful_run_fs (timestamp requirements_text : String)
    (s : SectionTexts) (results : Bundle) : Except String FS :=
  match create_output_directory emptyFS timestamp with
  | Except.error e => Except.error e
  | Except.ok (fs1, output_dir) =>
    let fs2 := crew_kickoff_writes fs1 output_dir requirements_text s
    let fs3 := export_to_word_fs fs2 output_dir results
    Except.ok (export_to_json_fs fs3 output_dir results)

/-- The file names of the six artifacts of a run, in the order they are
written. -/
def artifact_file_names : List String :=
  ["requirements_analysis.md", "detailed_test_cases.md", "test_data_sets.json",
   "validation_report.md", "Generated_Test_Cases.docx", "test_cases_complete.json"]

/-- Every artifact output path the script constructs during a run: the four
task `output_file`s (built with `os.path.join(self.output_dir, ...)`) and
the two exporter output paths. -/
def constructed_output_paths (output_dir requirements_text : String) :
    List PyPath :=
  [(analyze_requirements_task output_dir requirements_text).output_file,
   (generate_test_cases_task output_dir).output_file,
   (generate_test_data_task output_dir).output_file,
   (validate_test_cases_task output_dir).output_file,
   word_output_file output_dir,
   json_output_file output_dir]

/-- The paths of a run's artifact files, `output_dir/<name>` for each
artifact file name. -/
def run_artifact_paths (output_dir : String) : List PyPath :=
  artifact_file_names.map (fun n => path_join output_dir n)

/-! ### Helper lemmas -/

theorem find?_key_filter {β : Type} (l : List (PyPath × β)) (p q : PyPath)
    (h : ¬ q = p) :
    (l.filter (fun e => ¬ e.1 = p)).find? (fun e => e.1 = q)
      = l.find? (fun e => e.1 = q) := by
  induction l with
  | nil => rfl
  | cons a t ih =>
    by_cases hp : a.1 = p
    · have hq : ¬ a.1 = q := by
        intro hh; apply h; rw [← hh, hp]
      rw [List.filter_cons, if_neg (by simp [hp]), ih,
        List.find?_cons_of_neg _ (by simp [hq])]
    · by_cases hq : a.1 = q
      · rw [List.filter_cons, if_pos (by simp [hp]),
          List.find?_cons_of_pos _ (by simp [hq]),
          List.find?_cons_of_pos _ (by simp [hq])]
      · rw [List.filter_cons, if_pos (by simp [hp]),
          List.find?_cons_of_neg _ (by simp [hq]),
          List.find?_cons_of_neg _ (by simp [hq]), ih]

theorem fileLookup_writeFile (fs : FS) (p : PyPath) (c : FileContent)
    (q : PyPath) :
    fileLookup (writeFile fs p c) q = if q = p then some c else fileLookup fs q := by
  by_cases h : q = p
  · subst h; simp [fileLookup, writeFile]
  · rw [if_neg h]
    show (((p, c) :: fs.files.filter (fun e => ¬ e.1 = p)).find?
        (fun e => e.1 = q)).map (fun e => e.2) = fileLookup fs q
    rw [List.find?_cons_of_neg _ (by simpa using fun hh => h hh.symm),
      find?_key_filter _ _ _ h]
    rfl

theorem generate_test_cases_eq (dir req : String)
    (kick : List Agent → List PyTask → Except String Bundle)
    (exp : Bundle → Except String Unit) :
    generate_test_cases dir req kick exp =
      match kick workflow_crew_agents (workflow_tasks dir req) with
      | Except.error e => Except.ok (errorDict e)
      | Except.ok b =>
        match exp b with
        | Except.error e => Except.ok (errorDict e)
        | Except.ok _ => Except.ok (successDict b dir) := by
  cases hk : kick workflow_crew_agents (workflow_tasks dir req) with
  | error e => simp [generate_test_cases, hk]
  | ok b =>
    cases he : exp b with
    | error e => simp [generate_test_cases, hk, he]
    | ok u => simp [generate_test_cases, hk, he]

theorem lookup_successDict_status (b : Bundle) (d : String) :
    lookupJson (successDict b d) "status" = some (Json.str "success") := rfl

theorem lookup_successDict_result (b : Bundle) (d : String) :
    lookupJson (successDict b d) "result" = some (bundleJson b) := rfl

theorem lookup_successDict_dir (b : Bundle) (d : String) :
    lookupJson (successDict b d) "artifacts_directory" = some (Json.str d) := rfl

theorem lookup_errorDict_status (e : String) :
    lookupJson (errorDict e) "status" = some (Json.str "error") := rfl

theorem lookup_errorDict_error (e : String) :
    lookupJson (errorDict e) "error" = some (Json.str e) := rfl

/-! ### Claim theorems -/

/-- C10: `generate_test_cases` never propagates an exception to its caller；
for every outcome it returns a dictionary whose `status` key is either
`success` (with `result` and `artifacts_directory` keys present) or `error`
(with an `error` key holding the exception message). -/
theorem generate_test_cases_total_shape (dir req : String)
    (kick : List Agent → List PyTask → Except String Bundle)
    (exp : Bundle → Except String Unit) :
    ∃ j, generate_test_cases dir req kick exp = Except.ok j ∧
      ((lookupJson j "status" = some (Json.str "success") ∧
        (∃ r, lookupJson j "result" = some r) ∧
        lookupJson j "artifacts_directory" = some (Json.str dir)) ∨
       (∃ msg, lookupJson j "status" = some (Json.str "error") ∧
         lookupJson j "error" = some (Json.str msg))) := by
  cases hk : kick workflow_crew_agents (workflow_tasks dir req) with
  | error e =>
    refine ⟨errorDict e, ?_,
      Or.inr ⟨e, lookup_errorDict_status e, lookup_errorDict_error e⟩⟩
    rw [generate_test_cases_eq, hk]
  | ok b =>
    cases he : exp b with
    | error e =>
      refine ⟨errorDict e, ?_,
        Or.inr ⟨e, lookup_errorDict_status e, lookup_errorDict_error e⟩⟩
      rw [generate_test_cases_eq, hk]
      simp [he]
    | ok u =>
      refine ⟨successDict b dir, ?_,
        Or.inl ⟨lookup_successDict_status b dir,
          ⟨bundleJson b, lookup_successDict_result b dir⟩,
          lookup_successDict_dir b dir⟩⟩
      rw [generate_test_cases_eq, hk]
      simp [he]

/-- C4: if `OPENAI_API_KEY` is unset (after `load_dotenv`), module import
raises `ValueError` before any agent is constructed: the process aborts with
exit code 1, prints nothing to stdout, and no agent descriptor is created,
whatever the command line and external world look like. -/
theorem missing_api_key_aborts (argv : List String) (env : RunEnv) :
    module_startup none = Except.error missingKeyMsg ∧
    (script none argv env).agentsCreated = [] ∧
    (script none argv env).exitCode = 1 ∧
    (script none argv env).stdout = [] := by
  exact ⟨rfl, rfl, rfl, rfl⟩

/-- C5: with `len(sys.argv) != 2` — zero user arguments or more than one —
the process prints the usage string, exits with code 1, and performs no
file read, no network access, and no agent construction; `main` is never
entered.  (The module-level credential check has passed: with the key also
missing, the import abort of C4 happens instead.) -/
theorem wrong_arg_count_usage (envKey : Option String) (argv : List String)
    (env : RunEnv) (hkey : pyFalsy envKey = false) (hargv : argv.length ≠ 2) :
    script envKey argv env =
      { stdout := [Line.text usageMsg], stderr := [], exitCode := 1,
        fileReads := [], netCalls := 0, agentsCreated := [] } := by
  have hstart : module_startup envKey = Except.ok () := by
    simp [module_startup, hkey]
  match argv, hargv with
  | [], _ => simp [script, hstart]
  | [a], _ => simp [script, hstart]
  | a :: b :: c :: rest, _ => simp [script, hstart]
  | [a, b], h => exact absurd rfl h

/-- A sample external world used by the closed witness/counterexample
runs: the document reads fine, initialization succeeds, the crew returns an
empty bundle. -/
def sampleEnv : RunEnv :=
  { readDoc := Except.ok ["The system shall allow users to log in."],
    crewInit := Except.ok (),
    timestamp := "20250101_120000",
    kickoff := fun _ _ => Except.ok [("test_cases", "TC-1")],
    kickNet := 1,
    exportResults := fun _ => Except.ok () }

/-- Witness for C5: invoking the script with no user argument (and a
credential present) yields exactly the usage line and exit code 1. -/
theorem wrong_arg_count_usage_witness :
    pyFalsy (some "sk-test") = false ∧ ([ "testcase_generator.py" ] : List String).length ≠ 2 ∧
    script (some "sk-test") ["testcase_generator.py"] sampleEnv =
      { stdout := [Line.text usageMsg], stderr := [], exitCode := 1,
        fileReads := [], netCalls := 0, agentsCreated := [] } :=
  ⟨by decide, by decide,
    wrong_arg_count_usage (some "sk-test") ["testcase_generator.py"] sampleEnv
      (by decide) (by decide)⟩

/-- C6: for every result bundle the Word exporter emits the title heading
followed by exactly one heading-plus-paragraph pair per expected section —
Requirements Analysis, Test Cases, Test Data, Validation Report, in that
fixed order — and a section whose key is missing from the bundle renders as
the empty paragraph. -/
theorem export_word_sections (results : Bundle) (key : String)
    (hmissing : key ∉ results.map Prod.fst) :
    export_to_word_doc results =
      DocElem.heading 1 "Test Case Generation Results" ::
        (expected_sections.map
          (fun sec => [DocElem.heading 2 sec.1,
                       DocElem.para (pyGet results sec.2)])).flatten ∧
    pyGet results key = "" := by
  constructor
  · rfl
  · have hfind : results.find? (fun kv => kv.1 = key) = none := by
      rw [List.find?_eq_none]
      intro kv hkv
      simp only [decide_eq_true_eq]
      intro hk
      exact hmissing (hk ▸ List.mem_map_of_mem Prod.fst hkv)
    simp [pyGet, hfind]

/-- Witness for C6: a bundle carrying only `test_cases` still renders all
four sections, with the other three as empty paragraphs. -/
theorem export_word_sections_witness :
    ("validation_report" ∉ ([("test_cases", "TC-1")] : Bundle).map Prod.fst) ∧
    (export_to_word_doc [("test_cases", "TC-1")] =
      DocElem.heading 1 "Test Case Generation Results" ::
        (expected_sections.map
          (fun sec => [DocElem.heading 2 sec.1,
                       DocElem.para (pyGet [("test_cases", "TC-1")] sec.2)])).flatten ∧
     pyGet [("test_cases", "TC-1")] "validation_report" = "") :=
  ⟨by decide,
    export_word_sections [("test_cases", "TC-1")] "validation_report" (by decide)⟩

/-- C9: every artifact output path the run constructs — the four task
`output_file`s and the two exporter output paths — lies inside the run's
single output directory, and lies in no other directory: distinct run
directories have disjoint artifact paths. -/
theorem artifact_paths_in_run_dir (output_dir requirements_text : String)
    (p : PyPath) (hp : p ∈ constructed_output_paths output_dir requirements_text) :
    (∃ n, p = [output_dir, n] ∧ n ∈ artifact_file_names) ∧
    (∀ other_dir, other_dir ≠ output_dir → ¬ ∃ n, p = [other_dir, n]) := by
  have hforms : ∃ n, p = [output_dir, n] ∧ n ∈ artifact_file_names := by
    simp only [constructed_output_paths, analyze_requirements_task,
      generate_test_cases_task, generate_test_data_task,
      validate_test_cases_task, word_output_file, json_output_file,
      path_join, List.mem_cons, List.not_mem_nil, or_false] at hp
    rcases hp with h | h | h | h | h | h <;>
      exact ⟨_, h, by simp [artifact_file_names]⟩
  refine ⟨hforms, ?_⟩
  rcases hforms with ⟨n, hn, _⟩
  rintro other hother ⟨n', hn'⟩
  rw [hn] at hn'
  simp only [List.cons.injEq, and_true] at hn'
  exact hother hn'.1.symm

/-- Witness for C9: the first constructed path of a concrete run lies in its
own directory and in no other. -/
theorem artifact_paths_in_run_dir_witness :
    (["test_artifacts_20250101_120000", "requirements_analysis.md"] : PyPath) ∈
      constructed_output_paths "test_artifacts_20250101_120000" "req text" ∧
    ((∃ n, (["test_artifacts_20250101_120000", "requirements_analysis.md"] : PyPath)
        = ["test_artifacts_20250101_120000", n] ∧ n ∈ artifact_file_names) ∧
     (∀ other_dir, other_dir ≠ "test_artifacts_20250101_120000" →
        ¬ ∃ n, (["test_artifacts_20250101_120000", "requirements_analysis.md"] : PyPath)
          = [other_dir, n])) :=
  ⟨by simp [constructed_output_paths, analyze_requirements_task, path_join],
    artifact_paths_in_run_dir "test_artifacts_20250101_120000" "req text"
      ["test_artifacts_20250101_120000", "requirements_analysis.md"]
      (by simp [constructed_output_paths, analyze_requirements_task, path_join])⟩

/-- C8: when the timestamped output directory already exists (a second run
within the same wall-clock second), `_create_output_directory` still
succeeds — `os.makedirs(..., exist_ok=True)` suppresses the collision —
returning the same directory name and leaving the filesystem unchanged; and
a write to a path that already holds a file silently replaces its content
instead of raising. -/
theorem rerun_same_second_ok (fs : FS) (timestamp : String) (p : PyPath)
    (c c' : FileContent)
    (hdir : [output_dir_name timestamp] ∈ fs.dirs)
    (hfile : fileLookup fs p = some c) :
    create_output_directory fs timestamp =
      Except.ok (fs, output_dir_name timestamp) ∧
    fileLookup (writeFile fs p c') p = some c' := by
  constructor
  · simp [create_output_directory, makedirs, hdir]
  · rw [fileLookup_writeFile, if_pos rfl]

/-- Witness for C8: a filesystem already holding the run directory and one
artifact file from an earlier run in the same second. -/
theorem rerun_same_second_ok_witness :
    ([output_dir_name "20250101_120000"] ∈
      (FS.mk [["test_artifacts_20250101_120000"]]
        [(["test_artifacts_20250101_120000", "requirements_analysis.md"],
          FileContent.text "old")]).dirs) ∧
    (create_output_directory
        (FS.mk [["test_artifacts_20250101_120000"]]
          [(["test_artifacts_20250101_120000", "requirements_analysis.md"],
            FileContent.text "old")]) "20250101_120000" =
      Except.ok
        (FS.mk [["test_artifacts_20250101_120000"]]
          [(["test_artifacts_20250101_120000", "requirements_analysis.md"],
            FileContent.text "old")], output_dir_name "20250101_120000") ∧
     fileLookup
        (writeFile
          (FS.mk [["test_artifacts_20250101_120000"]]
            [(["test_artifacts_20250101_120000", "requirements_analysis.md"],
              FileContent.text "old")])
          ["test_artifacts_20250101_120000", "requirements_analysis.md"]
          (FileContent.text "new"))
        ["test_artifacts_20250101_120000", "requirements_analysis.md"] =
      some (FileContent.text "new")) :=
  ⟨by simp [output_dir_name],
    rerun_same_second_ok _ "20250101_120000"
      ["test_artifacts_20250101_120000", "requirements_analysis.md"]
      (FileContent.text "old") (FileContent.text "new")
      (by simp [output_dir_name]) (by rfl)⟩

/-- A stderr/stdout line set contains a well-formed JSON object with an
`error` key. -/
def hasJsonErrorLine (lines : List Line) : Prop :=
  ∃ fields, Line.json (Json.obj fields) ∈ lines ∧ "error" ∈ fields.map Prod.fst

/-- A run environment in which document read and crew initialization
succeed, with the crew outcome and export outcome as parameters. -/
def okEnv (paras : List String) (ts : String)
    (kick : List Agent → List PyTask → Except String Bundle) (n : Nat)
    (exp : Bundle → Except String Unit) : RunEnv :=
  { readDoc := Except.ok paras, crewInit := Except.ok (), timestamp := ts,
    kickoff := kick, kickNet := n, exportResults := exp }

theorem script_two_args (key prog fp : String) (env : RunEnv)
    (hkey : key ≠ "") :
    script (some key) [prog, fp] env = pymain fp env := by
  simp [script, module_startup, pyFalsy, hkey]

theorem pymain_workflow_result (fp : String) (env : RunEnv)
    (paras : List String) (j : Json)
    (hread : env.readDoc = Except.ok paras)
    (hinit : env.crewInit = Except.ok ())
    (hgen : generate_test_cases (output_dir_name env.timestamp)
      (load_requirements paras) env.kickoff env.exportResults = Except.ok j) :
    pymain fp env =
      { stdout := [Line.json j],
        stderr := Line.log "INFO" "TestCaseGenerationCrew initialized" ::
          generate_test_cases_logs (output_dir_name env.timestamp)
            (load_requirements paras) env.kickoff env.exportResults,
        exitCode :=
          match lookupJson j "status" with
          | some (Json.str s) => if s = "success" then 0 else 1
          | _ => 1,
        fileReads := [fp], netCalls := env.kickNet,
        agentsCreated := workflow_agents_created (output_dir_name env.timestamp)
          (load_requirements paras) } := by
  simp only [pymain, hread, hinit, hgen]

/-- Counterexample to C1 as stated: a run whose `crew.kickoff` raises — an
exception during orchestration — writes no JSON object at all to standard
error; stderr carries only plain-text logging records, and the error JSON
goes to standard output instead.  The claim that stderr then contains a
well-formed JSON object with an `error` key is false. -/
theorem orchestration_error_not_on_stderr :
    ¬ hasJsonErrorLine
      (script (some "sk-test") ["testcase_generator.py", "requirements.docx"]
        (okEnv ["The system shall allow users to log in."] "20250101_120000"
          (fun _ _ => Except.error "kickoff failed") 1
          (fun _ => Except.ok ()))).stderr ∧
    (script (some "sk-test") ["testcase_generator.py", "requirements.docx"]
        (okEnv ["The system shall allow users to log in."] "20250101_120000"
          (fun _ _ => Except.error "kickoff failed") 1
          (fun _ => Except.ok ()))).exitCode = 1 := by
  constructor
  · have hs : (script (some "sk-test")
        ["testcase_generator.py", "requirements.docx"]
        (okEnv ["The system shall allow users to log in."] "20250101_120000"
          (fun _ _ => Except.error "kickoff failed") 1
          (fun _ => Except.ok ()))).stderr =
        [Line.log "INFO" "TestCaseGenerationCrew initialized",
         Line.log "INFO" "Starting test case generation workflow",
         Line.log "ERROR" ("Error in test case generation: " ++ "kickoff failed")] :=
      rfl
    rw [hasJsonErrorLine, hs]
    rintro ⟨fields, hmem, -⟩
    simp at hmem
  · rfl

/-- C1 (amended): every exception raised during orchestration — whether
`crew.kickoff` or the export step raises — is caught inside
`generate_test_cases`; `main` then prints the single well-formed JSON
object `{"status": "error", "error": <message>}`, which contains an
`error` key, to standard OUTPUT, and the process exits with code 1;
standard error receives no JSON error object (only the plain-text records
of the logging handler). -/
theorem orchestration_error_json_on_stdout (key prog fp ts msg : String)
    (paras : List String) (n : Nat) (b : Bundle)
    (exp : Bundle → Except String Unit) (hkey : key ≠ "") :
    ((script (some key) [prog, fp]
        (okEnv paras ts (fun _ _ => Except.error msg) n exp)).stdout
        = [Line.json (errorDict msg)] ∧
     ¬ hasJsonErrorLine (script (some key) [prog, fp]
        (okEnv paras ts (fun _ _ => Except.error msg) n exp)).stderr ∧
     (script (some key) [prog, fp]
        (okEnv paras ts (fun _ _ => Except.error msg) n exp)).exitCode = 1) ∧
    ((script (some key) [prog, fp]
        (okEnv paras ts (fun _ _ => Except.ok b) n
          (fun _ => Except.error msg))).stdout = [Line.json (errorDict msg)] ∧
     ¬ hasJsonErrorLine (script (some key) [prog, fp]
        (okEnv paras ts (fun _ _ => Except.ok b) n
          (fun _ => Except.error msg))).stderr ∧
     (script (some key) [prog, fp]
        (okEnv paras ts (fun _ _ => Except.ok b) n
          (fun _ => Except.error msg))).exitCode = 1) := by
  have hgen1 : generate_test_cases (output_dir_name ts) (load_requirements paras)
      (fun _ _ => Except.error msg) exp = Except.ok (errorDict msg) := rfl
  have hgen2 : generate_test_cases (output_dir_name ts) (load_requirements paras)
      (fun _ _ => Except.ok b) (fun _ => Except.error msg)
      = Except.ok (errorDict msg) := rfl
  have h1 := pymain_workflow_result fp
    (okEnv paras ts (fun _ _ => Except.error msg) n exp) paras (errorDict msg)
    rfl rfl hgen1
  have h2 := pymain_workflow_result fp
    (okEnv paras ts (fun _ _ => Except.ok b) n (fun _ => Except.error msg))
    paras (errorDict msg) rfl rfl hgen2
  refine ⟨⟨?_, ?_, ?_⟩, ⟨?_, ?_, ?_⟩⟩
  · simp [script_two_args _ _ _ _ hkey, h1]
  · rw [script_two_args _ _ _ _ hkey, h1, hasJsonErrorLine]
    rintro ⟨fields, hmem, -⟩
    simp [generate_test_cases_logs, okEnv] at hmem
  · simp [script_two_args _ _ _ _ hkey, h1, lookup_errorDict_status]
  · simp [script_two_args _ _ _ _ hkey, h2]
  · rw [script_two_args _ _ _ _ hkey, h2, hasJsonErrorLine]
    rintro ⟨fields, hmem, -⟩
    simp [generate_test_cases_logs, okEnv] at hmem
  · simp [script_two_args _ _ _ _ hkey, h2, lookup_errorDict_status]

/-- Witness for C1 (amended): a concrete run whose kickoff raises `boom`
prints exactly the error-status JSON object on standard output. -/
theorem orchestration_error_json_on_stdout_witness :
    (script (some "sk-test") ["testcase_generator.py", "requirements.docx"]
      (okEnv ["The system shall allow users to log in."] "20250101_120000"
        (fun _ _ => Except.error "boom") 1 (fun _ => Except.ok ()))).stdout
      = [Line.json (errorDict "boom")] :=
  (orchestration_error_json_on_stdout "sk-test" "testcase_generator.py"
    "requirements.docx" "20250101_120000" "boom"
    ["The system shall allow users to log in."] 1 []
    (fun _ => Except.ok ()) (by decide)).1.1

/-- Counterexample to C2 as stated: a run with one argument whose input
document cannot be read prints NO JSON status line to standard output — the
error JSON goes to standard error — so "for every run … prints a JSON
status line to standard output" is false. -/
theorem cli_no_stdout_on_load_failure :
    (script (some "sk-test") ["testcase_generator.py", "missing.docx"]
      { readDoc := Except.error "Package not found at missing.docx",
        crewInit := Except.ok (), timestamp := "20250101_120000",
        kickoff := fun _ _ => Except.ok [], kickNet := 0,
        exportResults := fun _ => Except.ok () }).stdout = [] ∧
    (script (some "sk-test") ["testcase_generator.py", "missing.docx"]
      { readDoc := Except.error "Package not found at missing.docx",
        crewInit := Except.ok (), timestamp := "20250101_120000",
        kickoff := fun _ _ => Except.ok [], kickNet := 0,
        exportResults := fun _ => Except.ok () }).exitCode = 1 ∧
    (script (some "sk-test") ["testcase_generator.py", "missing.docx"]
      { readDoc := Except.error "Package not found at missing.docx",
        crewInit := Except.ok (), timestamp := "20250101_120000",
        kickoff := fun _ _ => Except.ok [], kickNet := 0,
        exportResults := fun _ => Except.ok () }).stderr
      = [stderrErrorLine "Package not found at missing.docx"] :=
  ⟨rfl, rfl, rfl⟩

/-- C2 (amended): for every run with one argument in which the input
document loads and the crew initializes, the workflow result dictionary is
printed as a single JSON line on standard output, and the exit code is 0
exactly when its `status` is `success` and 1 exactly otherwise.  (A run
whose document read or initialization raises prints the error JSON on
standard error instead, with exit code 1.) -/
theorem cli_status_line_and_exit (key prog fp ts : String)
    (paras : List String) (n : Nat)
    (kick : List Agent → List PyTask → Except String Bundle)
    (exp : Bundle → Except String Unit) (hkey : key ≠ "") :
    ∃ j, generate_test_cases (output_dir_name ts) (load_requirements paras)
        kick exp = Except.ok j ∧
      (script (some key) [prog, fp] (okEnv paras ts kick n exp)).stdout
        = [Line.json j] ∧
      ((script (some key) [prog, fp] (okEnv paras ts kick n exp)).exitCode = 0 ↔
        lookupJson j "status" = some (Json.str "success")) ∧
      ((script (some key) [prog, fp] (okEnv paras ts kick n exp)).exitCode = 1 ↔
        ¬ lookupJson j "status" = some (Json.str "success")) := by
  cases hk : kick workflow_crew_agents
      (workflow_tasks (output_dir_name ts) (load_requirements paras)) with
  | error e =>
    have hgen : generate_test_cases (output_dir_name ts)
        (load_requirements paras) kick exp = Except.ok (errorDict e) := by
      rw [generate_test_cases_eq, hk]
    refine ⟨errorDict e, hgen, ?_⟩
    have hp := pymain_workflow_result fp (okEnv paras ts kick n exp) paras
      (errorDict e) rfl rfl hgen
    simp only [script_two_args _ _ _ _ hkey, hp, lookup_errorDict_status]
    refine ⟨by simp, ?_, ?_⟩ <;> simp
  | ok b =>
    cases he : exp b with
    | error e =>
      have hgen : generate_test_cases (output_dir_name ts)
          (load_requirements paras) kick exp = Except.ok (errorDict e) := by
        rw [generate_test_cases_eq, hk]; simp [he]
      refine ⟨errorDict e, hgen, ?_⟩
      have hp := pymain_workflow_result fp (okEnv paras ts kick n exp) paras
        (errorDict e) rfl rfl hgen
      simp only [script_two_args _ _ _ _ hkey, hp, lookup_errorDict_status]
      refine ⟨by simp, ?_, ?_⟩ <;> simp
    | ok u =>
      have hgen : generate_test_cases (output_dir_name ts)
          (load_requirements paras) kick exp
          = Except.ok (successDict b (output_dir_name ts)) := by
        rw [generate_test_cases_eq, hk]; simp [he]
      refine ⟨successDict b (output_dir_name ts), hgen, ?_⟩
      have hp := pymain_workflow_result fp (okEnv paras ts kick n exp) paras
        (successDict b (output_dir_name ts)) rfl rfl hgen
      simp only [script_two_args _ _ _ _ hkey, hp, lookup_successDict_status]
      refine ⟨by simp, ?_, ?_⟩ <;> simp

/-- Witness for C2 (amended): a concrete successful run prints the success
dictionary on standard output with exit code 0. -/
theorem cli_status_line_and_exit_witness :
    (script (some "sk-test") ["testcase_generator.py", "requirements.docx"]
      (okEnv ["The system shall allow users to log in."] "20250101_120000"
        (fun _ _ => Except.ok [("test_cases", "TC-1")]) 1
        (fun _ => Except.ok ()))).exitCode = 0 := by
  obtain ⟨j, hgen, -, hiff, -⟩ := cli_status_line_and_exit "sk-test"
    "testcase_generator.py" "requirements.docx" "20250101_120000"
    ["The system shall allow users to log in."] 1
    (fun _ _ => Except.ok [("test_cases", "TC-1")])
    (fun _ => Except.ok ()) (by decide)
  have hj : j = successDict [("test_cases", "TC-1")]
      (output_dir_name "20250101_120000") := by
    have h2 : Except.ok j = (Except.ok (successDict
        [("test_cases", "TC-1")] (output_dir_name "20250101_120000"))
          : Except String Json) :=
      hgen.symm.trans rfl
    exact Except.ok.inj h2
  exact hiff.mpr (by rw [hj]; exact lookup_successDict_status _ _)

/-- Counterexample to C3 as stated: a document whose paragraphs are
`["a", "", "b"]` has two non-empty paragraphs, `a` and `b`, but the loader
produces `"a\n\nb"`, not their newline-join `"a\nb"` — empty paragraphs are
not skipped. -/
theorem loader_counts_empty_paragraphs :
    load_requirements ["a", "", "b"] = "a\n\nb" ∧
    load_requirements ["a", "", "b"] ≠ String.intercalate "\n" ["a", "b"] := by
  constructor
  · rfl
  · decide

theorem pyJoin_shift (s x a : String) (t : List String) :
    pyJoinStrings s ((x ++ s ++ a) :: t) = x ++ s ++ pyJoinStrings s (a :: t) := by
  cases t with
  | nil => rfl
  | cons b u => simp [pyJoinStrings, String.append_assoc]

theorem intercalate_go_eq (s : String) (as : List String) :
    ∀ x, String.intercalate.go x s as = pyJoinStrings s (x :: as) := by
  induction as with
  | nil => intro x; rfl
  | cons a t ih =>
    intro x
    have h1 : String.intercalate.go x s (a :: t)
        = String.intercalate.go (x ++ s ++ a) s t := rfl
    rw [h1, ih (x ++ s ++ a), pyJoin_shift]
    rfl

/-- C3 (amended): the loader produces the newline-join of ALL paragraph
texts, in document order — empty paragraph texts included, each contributing
its separator.  (When every paragraph is non-empty this is the newline-join
of the N non-empty paragraph texts, as the original claim says.) -/
theorem loader_joins_all_paragraphs (paragraphs : List String) :
    load_requirements paragraphs = String.intercalate "\n" paragraphs := by
  cases paragraphs with
  | nil => rfl
  | cons x as =>
    have h : String.intercalate "\n" (x :: as)
        = String.intercalate.go x "\n" as := rfl
    rw [h, intercalate_go_eq]
    rfl

/-- C7: a run that completes successfully in a fresh working directory
leaves an output directory named `test_artifacts_<timestamp>` containing
exactly the six artifact files — `requirements_analysis.md`,
`detailed_test_cases.md`, `test_data_sets.json`, `validation_report.md`,
`Generated_Test_Cases.docx`, `test_cases_complete.json` — each non-empty,
provided each task produced non-empty text (the four Markdown/JSON task
outputs hold exactly the generated texts; the Word document always has at
least its title heading; a `json.dump` is always non-empty text). -/
theorem successful_run_artifacts (ts req : String) (s : SectionTexts)
    (b : Bundle)
    (h1 : s.requirements_analysis ≠ "") (h2 : s.test_cases ≠ "")
    (h3 : s.test_data ≠ "") (h4 : s.validation_report ≠ "") :
    ∃ fs, successful_run_fs ts req s b = Except.ok fs ∧
      output_dir_name ts = "test_artifacts_" ++ ts ∧
      (fs.files.map Prod.fst).Perm (run_artifact_paths (output_dir_name ts)) ∧
      (∀ e ∈ fs.files, FileContent.nonEmpty e.2) := by
  have hrun : successful_run_fs ts req s b = Except.ok
      { dirs := [[output_dir_name ts]],
        files :=
          [(json_output_file (output_dir_name ts),
              FileContent.jsonFile (bundleJson b)),
           (word_output_file (output_dir_name ts),
              FileContent.wordDoc (export_to_word_doc b)),
           (path_join (output_dir_name ts) "validation_report.md",
              FileContent.text s.validation_report),
           (path_join (output_dir_name ts) "test_data_sets.json",
              FileContent.text s.test_data),
           (path_join (output_dir_name ts) "detailed_test_cases.md",
              FileContent.text s.test_cases),
           (path_join (output_dir_name ts) "requirements_analysis.md",
              FileContent.text s.requirements_analysis)] } := by
    simp [successful_run_fs, create_output_directory, makedirs, emptyFS,
      crew_kickoff_writes, export_to_word_fs, export_to_json_fs, writeFile,
      analyze_requirements_task, generate_test_cases_task,
      generate_test_data_task, validate_test_cases_task,
      word_output_file, json_output_file, path_join, List.filter_cons]
  refine ⟨_, hrun, rfl, ?_, ?_⟩
  · exact List.reverse_perm (run_artifact_paths (output_dir_name ts))
  · intro e he
    simp only [List.mem_cons, List.not_mem_nil, or_false] at he
    rcases he with h | h | h | h | h | h <;> subst h <;>
      simp [FileContent.nonEmpty, h1, h2, h3, h4, export_to_word_doc]

/-- Witness for C7: a concrete successful run with non-empty section texts. -/
theorem successful_run_artifacts_witness :
    (("analysis" : String) ≠ "" ∧ ("cases" : String) ≠ "" ∧
     ("data" : String) ≠ "" ∧ ("report" : String) ≠ "") ∧
    (∃ fs, successful_run_fs "20250101_120000" "req text"
        (SectionTexts.mk "analysis" "cases" "data" "report")
        [("test_cases", "TC-1")] = Except.ok fs ∧
      output_dir_name "20250101_120000" = "test_artifacts_" ++ "20250101_120000" ∧
      (fs.files.map Prod.fst).Perm
        (run_artifact_paths (output_dir_name "20250101_120000")) ∧
      (∀ e ∈ fs.files, FileContent.nonEmpty e.2)) :=
  ⟨⟨by decide, by decide, by decide, by decide⟩,
    successful_run_artifacts "20250101_120000" "req text"
      (SectionTexts.mk "analysis" "cases" "data" "report")
      [("test_cases", "TC-1")]
      (by decide) (by decide) (by decide) (by decide)⟩
